import Mathlib

/-!
Verification of the soil-erosion raster/tile service against its
natural-language specification.

This file shallowly embeds the relevant parts of the Python sources
(gee_service.py, config.py, raster_generator.py, tile_generator.py) as
executable Lean definitions and proves the specified properties about them.
Machine floats are modelled as exact rationals extended with NaN and the two
infinities (FVal below), with IEEE comparison semantics (all comparisons with
NaN are false).  Fallible code is modelled with Except/Option.
-/

/-! ## Config (config.py, lines 54-55) -/

/-- config.py line 54: coordinate-count threshold for complex geometry. -/
def COMPLEX_GEOMETRY_THRESHOLD : ℕ := 500

/-- config.py line 55: area threshold (square kilometres) for large areas. -/
def LARGE_AREA_THRESHOLD_KM2 : ℚ := 1000

/-! ## ComplexityAnalyzer (gee_service.py, analyze_geometry_complexity) -/

/-- The recommended-parameter dictionaries built in
gee_service.py lines 396-439. -/
structure ParameterBundle where
  simplify_tolerance : ℕ
  rusle_scale : ℕ
  sample_scale : ℕ
  grid_size : ℕ
  max_samples : ℕ
  batch_size : ℕ
  max_workers : ℕ
deriving DecidableEq, Repr

/-- Preset for is_large_area and is_complex (gee_service.py lines 398-406). -/
def veryHighPreset : ParameterBundle :=
  { simplify_tolerance := 2000, rusle_scale := 300, sample_scale := 200,
    grid_size := 5, max_samples := 25, batch_size := 50, max_workers := 8 }

/-- Preset for is_complex only (gee_service.py lines 409-417). -/
def highPreset : ParameterBundle :=
  { simplify_tolerance := 1000, rusle_scale := 200, sample_scale := 150,
    grid_size := 7, max_samples := 49, batch_size := 50, max_workers := 6 }

/-- Preset for is_large_area only (gee_service.py lines 420-428). -/
def mediumPreset : ParameterBundle :=
  { simplify_tolerance := 1000, rusle_scale := 200, sample_scale := 150,
    grid_size := 7, max_samples := 50, batch_size := 50, max_workers := 6 }

/-- Preset for small and simple geometries (gee_service.py lines 431-439). -/
def lowPreset : ParameterBundle :=
  { simplify_tolerance := 500, rusle_scale := 100, sample_scale := 100,
    grid_size := 10, max_samples := 100, batch_size := 30, max_workers := 4 }

/-- Result of analyze_geometry_complexity (gee_service.py lines 441-450).
The Python dict also echoes coord_count and round(area_km2, 2); the decimal
rounding of the echoed area is irrelevant to the classification and elided. -/
structure ComplexityProfile where
  coord_count : ℕ
  is_large_area : Bool
  is_complex : Bool
  complexity_level : String
  recommended : ParameterBundle
deriving DecidableEq, Repr

/-- gee_service.py lines 378-450: classification of a geometry from its
coordinate count and its area in square kilometres. -/
def analyze_geometry_complexity (coord_count : ℕ) (area_km2 : ℚ) :
    ComplexityProfile :=
  let is_large_area : Bool := decide (area_km2 > LARGE_AREA_THRESHOLD_KM2)
  let is_complex : Bool := decide (coord_count > COMPLEX_GEOMETRY_THRESHOLD)
  let recommended : ParameterBundle :=
    if is_large_area && is_complex then veryHighPreset
    else if is_complex then highPreset
    else if is_large_area then mediumPreset
    else lowPreset
  { coord_count := coord_count
    is_large_area := is_large_area
    is_complex := is_complex
    complexity_level :=
      if is_large_area && is_complex then "very_high"
      else if is_complex then "high"
      else if is_large_area then "medium"
      else "low"
    recommended := recommended }

/-- The level-to-preset lookup table the specification describes: the four
fixed presets keyed by complexity level. -/
def presetForLevel (level : String) : ParameterBundle :=
  if level = "very_high" then veryHighPreset
  else if level = "high" then highPreset
  else if level = "medium" then mediumPreset
  else lowPreset

/-! ## Machine floats for pixel values -/

/-- Model of a float pixel value: NaN, the two infinities, or an exact
finite value. -/
inductive FVal where
  | nan : FVal
  | posInf : FVal
  | negInf : FVal
  | fin : ℚ → FVal
deriving DecidableEq, Repr

/-- IEEE comparison v <= c against a finite constant (false for NaN). -/
def FVal.leQ : FVal → ℚ → Bool
  | .nan, _ => false
  | .posInf, _ => false
  | .negInf, _ => true
  | .fin q, c => decide (q ≤ c)

/-- IEEE comparison v < c against a finite constant (false for NaN). -/
def FVal.ltQ : FVal → ℚ → Bool
  | .nan, _ => false
  | .posInf, _ => false
  | .negInf, _ => true
  | .fin q, c => decide (q < c)

/-- IEEE comparison v >= c against a finite constant (false for NaN). -/
def FVal.geQ : FVal → ℚ → Bool
  | .nan, _ => false
  | .posInf, _ => true
  | .negInf, _ => false
  | .fin q, c => decide (q ≥ c)

/-- IEEE comparison v > c against a finite constant (false for NaN). -/
def FVal.gtQ : FVal → ℚ → Bool
  | .nan, _ => false
  | .posInf, _ => true
  | .negInf, _ => false
  | .fin q, c => decide (q > c)

/-- np.isnan. -/
def FVal.isNaNB : FVal → Bool
  | .nan => true
  | _ => false

/-- np.isfinite (false for NaN and both infinities). -/
def FVal.isFiniteB : FVal → Bool
  | .fin _ => true
  | _ => false

/-! ## Colormap (tile_generator.py, apply_erosion_colormap, lines 433-472) -/

/-- An RGBA pixel. -/
structure Rgba where
  r : ℕ
  g : ℕ
  b : ℕ
  a : ℕ
deriving DecidableEq, Repr

/-- tile_generator.py lines 447-472, per pixel.  The numpy code assigns the
four band colors under masks that all conjoin (not nodata_mask), with the
bands pairwise disjoint, and finally overwrites nodata pixels with
transparent; pixels matched by no mask keep the initial zeros.  That is
equivalent to the if-chain below. -/
def apply_erosion_colormap (v : FVal) : Rgba :=
  let nodata : Bool := v.leQ 0 || v.isNaNB
  if nodata then ⟨0, 0, 0, 0⟩
  else if v.gtQ 0 && v.ltQ 50 then ⟨76, 175, 80, 200⟩
  else if v.geQ 50 && v.ltQ 100 then ⟨255, 235, 59, 200⟩
  else if v.geQ 100 && v.ltQ 150 then ⟨255, 152, 0, 200⟩
  else if v.geQ 150 then ⟨244, 67, 54, 220⟩
  else ⟨0, 0, 0, 0⟩

/-- The classification as the amended claim states it: values that are <= 0
or NaN are fully transparent, finite positive values fall in exactly one of
the four half-open bands, and positive infinity falls in the top (red) band.
This definition is written from the amended specification wording, to be
compared with apply_erosion_colormap, which is written from the source. -/
def classifySpec (v : FVal) : Rgba :=
  match v with
  | .nan => ⟨0, 0, 0, 0⟩
  | .negInf => ⟨0, 0, 0, 0⟩
  | .posInf => ⟨244, 67, 54, 220⟩
  | .fin q =>
      if q ≤ 0 then ⟨0, 0, 0, 0⟩
      else if q < 50 then ⟨76, 175, 80, 200⟩
      else if q < 100 then ⟨255, 235, 59, 200⟩
      else if q < 150 then ⟨255, 152, 0, 200⟩
      else ⟨244, 67, 54, 220⟩

/-! ## RegionTiler grid (raster_generator.py, _download_tiled_image,
lines 261-301) -/

/-- A geographic bounding box in degrees. -/
structure Bbox where
  min_lon : ℚ
  max_lon : ℚ
  min_lat : ℚ
  max_lat : ℚ
deriving DecidableEq, Repr

/-- The cols x rows grid with the recomputed per-tile degree spans. -/
structure GridSpec where
  cols : ℕ
  rows : ℕ
  tile_width_deg : ℚ
  tile_height_deg : ℚ
deriving DecidableEq, Repr

/-- math.ceil on an exact rational, as the smallest integer no smaller than
the argument, written with the executable Rat.floor so that it evaluates in
the kernel. -/
def ratCeil (q : ℚ) : ℤ :=
  -Rat.floor (-q)

/-- raster_generator.py lines 274-289: derive the sub-tile grid for a
bounding box at a given scale and per-tile pixel budget.  Note that
lines 283-284 take the max of the pixel-budget span and the full box span. -/
def computeGrid (b : Bbox) (scale max_pixels : ℚ) : GridSpec :=
  let width_deg := b.max_lon - b.min_lon
  let height_deg := b.max_lat - b.min_lat
  let meters_per_degree : ℚ := 111000
  let tile_width_deg := max_pixels * scale / meters_per_degree
  let tile_height_deg := max_pixels * scale / meters_per_degree
  let tile_width_deg := max tile_width_deg width_deg
  let tile_height_deg := max tile_height_deg height_deg
  let cols : ℕ := max 1 (ratCeil (width_deg / tile_width_deg)).toNat
  let rows : ℕ := max 1 (ratCeil (height_deg / tile_height_deg)).toNat
  { cols := cols, rows := rows,
    tile_width_deg := width_deg / cols,
    tile_height_deg := height_deg / rows }

/-- raster_generator.py line 298: west edge of the sub-tile in column col. -/
def tileMinLon (b : Bbox) (g : GridSpec) (col : ℕ) : ℚ :=
  b.min_lon + col * g.tile_width_deg

/-- raster_generator.py line 299: east edge of the sub-tile in column col. -/
def tileMaxLon (b : Bbox) (g : GridSpec) (col : ℕ) : ℚ :=
  min (tileMinLon b g col + g.tile_width_deg) b.max_lon

/-- raster_generator.py line 300: south edge of the sub-tile in row row. -/
def tileMinLat (b : Bbox) (g : GridSpec) (row : ℕ) : ℚ :=
  b.min_lat + row * g.tile_height_deg

/-- raster_generator.py line 301: north edge of the sub-tile in row row. -/
def tileMaxLat (b : Bbox) (g : GridSpec) (row : ℕ) : ℚ :=
  min (tileMinLat b g row + g.tile_height_deg) b.max_lat

/-! ## TiledDownloader retry loop (raster_generator.py, lines 336-376) -/

/-- Outcome of one HTTP request for one sub-tile: success, a read timeout
(requests.exceptions.ReadTimeout), or another request failure
(requests.exceptions.RequestException). -/
inductive ReqOutcome where
  | success : ReqOutcome
  | readTimeout : ReqOutcome
  | requestError : ReqOutcome
deriving DecidableEq, Repr

/-- Backoff slept before the next attempt, as a function of the failure kind
and the 1-based attempt number (raster_generator.py lines 356 and 371). -/
def retryBackoff : ReqOutcome → ℕ → ℕ
  | .readTimeout, attempt => min 120 (10 * attempt)
  | .requestError, attempt => min 120 (5 * attempt)
  | .success, _ => 0

/-- One entry of the attempt trace of a sub-tile download: the 1-based
attempt number, the outcome of the request, and the backoff slept after a
failed attempt (none on success and on the final, exhausting failure). -/
structure AttemptLog where
  attempt : ℕ
  outcome : ReqOutcome
  slept : Option ℕ
deriving DecidableEq, Repr

/-- raster_generator.py lines 336-376: the retry loop for one sub-tile,
given the outcome of each (1-based) attempt.  Returns the trace of attempts
made and whether the download succeeded; fuel is the number of attempts
still allowed (max_retries minus the attempts already made). -/
def runAttempts (f : ℕ → ReqOutcome) : ℕ → ℕ → List AttemptLog × Bool
  | _, 0 => ([], false)
  | attempt, fuel + 1 =>
    match f attempt with
    | .success => ([⟨attempt, .success, none⟩], true)
    | o =>
      if fuel = 0 then
        ([⟨attempt, o, none⟩], false)
      else
        let rest := runAttempts f (attempt + 1) fuel
        (⟨attempt, o, some (retryBackoff o attempt)⟩ :: rest.1, rest.2)

/-- raster_generator.py line 336: max_retries = 3, attempts start at 1. -/
def downloadTileRun (f : ℕ → ReqOutcome) : List AttemptLog × Bool :=
  runAttempts f 1 3

/-- A sub-tile of the grid, as the download loop sees it: either skipped
before any request (intersection area <= 0, lines 311-312, or fewer than 10
pixels on a side, lines 319-320), or fetched with the given per-attempt
outcomes. -/
inductive SubTile where
  | skipped : SubTile
  | fetch : (ℕ → ReqOutcome) → SubTile

/-- raster_generator.py lines 293-376: walk the sub-tiles in order,
accumulating downloaded tile files; a sub-tile that exhausts its retries
re-raises, aborting the walk.  Returns the number of downloaded tile files. -/
def processTiles : List SubTile → Except String ℕ
  | [] => .ok 0
  | .skipped :: rest => processTiles rest
  | .fetch f :: rest =>
    if (downloadTileRun f).2 then (processTiles rest).map (· + 1)
    else .error "request failed after 3 attempts"

/-- raster_generator.py lines 378-399: after the walk, raise if no sub-tile
was downloaded, otherwise mosaic the downloaded tiles and report their
count. -/
def download_tiled_image (tiles : List SubTile) : Except String ℕ :=
  match processTiles tiles with
  | .error e => .error e
  | .ok 0 => .error "Tiled download produced no tiles."
  | .ok n => .ok n

/-! ## generate_geotiff orchestration (raster_generator.py, lines 30-168) -/

/-- The metadata fields of generate_geotiff relevant to the claims
(raster_generator.py lines 146-166). -/
structure GeotiffMetadata where
  complexity : String
  scale : ℕ
  simplify_tolerance : ℕ
  tile_count : ℕ
  tiling_error : Option String
deriving DecidableEq, Repr

/-- raster_generator.py lines 56-166: the control flow of generate_geotiff
around the tiled download: analyze complexity, cap the simplification
tolerance at 500 m (lines 60-62), attempt the tiled download, and on any
tiled-download failure record the error string and fall back to
sampling-based generation (lines 117-137).  The second component reports
whether the grid-sampling fallback _generate_from_samples was invoked. -/
def generate_geotiff (coord_count : ℕ) (area_km2 : ℚ)
    (tiles : List SubTile) : GeotiffMetadata × Bool :=
  let complexity := analyze_geometry_complexity coord_count area_km2
  let tolerance := complexity.recommended.simplify_tolerance
  let tolerance := min tolerance 500
  let scale := complexity.recommended.rusle_scale
  match download_tiled_image tiles with
  | .ok n =>
      ({ complexity := complexity.complexity_level, scale := scale,
         simplify_tolerance := tolerance, tile_count := n,
         tiling_error := none }, false)
  | .error e =>
      ({ complexity := complexity.complexity_level, scale := scale,
         simplify_tolerance := tolerance, tile_count := 0,
         tiling_error := some e }, true)

/-! ## Tile renderer (tile_generator.py, _render_tile, lines 264-348) -/

/-- Web Mercator bounds of the loaded raster, [west, south, east, north]. -/
structure WMBounds where
  west : ℚ
  south : ℚ
  east : ℚ
  north : ℚ
deriving DecidableEq, Repr

/-- Web Mercator bounds of one slippy-map tile (mercantile.xy_bounds). -/
structure TileBounds where
  left : ℚ
  bottom : ℚ
  right : ℚ
  top : ℚ
deriving DecidableEq, Repr

/-- tile_generator.py line 20: fixed output tile size. -/
def tile_size : ℕ := 256

/-- A resampled scalar buffer (row-major), the result of the rasterio
reproject call of lines 308-319, which is external numeric code and is
therefore an input of the embedded renderer. -/
def ScalarGrid := List (List FVal)

/-- An RGBA image, row-major. -/
def RgbaImage := List (List Rgba)

/-- An 8-bit single-channel mask, row-major (mode L). -/
def MaskImage := List (List ℕ)

/-- np.any over a scalar grid. -/
def anyPixel (g : ScalarGrid) (p : FVal → Bool) : Bool :=
  g.any fun row => row.any p

/-- tile_generator.py line 330: clamp negative values to zero
(tile_scalar[tile_scalar < 0] = 0; NaN compares false and is kept). -/
def clampNeg (v : FVal) : FVal :=
  if v.ltQ 0 then .fin 0 else v

/-- Clamping applied to the whole resampled buffer. -/
def clampGrid (g : ScalarGrid) : ScalarGrid :=
  g.map (List.map clampNeg)

/-- The colormap applied to the whole buffer (tile_generator.py line 335). -/
def colormapGrid (g : ScalarGrid) : RgbaImage :=
  g.map (List.map apply_erosion_colormap)

/-- np.any(colored[:, :, 3]): some pixel has nonzero alpha
(tile_generator.py line 338). -/
def anyOpaque (img : RgbaImage) : Bool :=
  img.any fun row => row.any fun px => px.a != 0

/-- PIL MULDIV255 rounding used by Image.composite: an approximation of
round(x * y / 255), modelled from the PIL blend semantics. -/
def muldiv255 (x y : ℕ) : ℕ :=
  (x * y + 128) * 257 / 65536

/-- One pixel of Image.composite(img, fully-transparent, mask)
(tile_generator.py line 346): blend each channel of the pixel against the
transparent background through the 8-bit mask value. -/
def compositePixel (px : Rgba) (m : ℕ) : Rgba :=
  ⟨muldiv255 px.r m, muldiv255 px.g m, muldiv255 px.b m, muldiv255 px.a m⟩

/-- Image.composite of the classified image against a fully transparent
background through the geometry mask (tile_generator.py lines 343-346). -/
def compositeMask (img : RgbaImage) (mask : MaskImage) : RgbaImage :=
  img.zipWith (fun rowI rowM => rowI.zipWith compositePixel rowM) mask

/-- tile_generator.py lines 264-348 (_render_tile): render one tile from the
resampled scalar buffer, skipping (returning none, so that no file is
written) a tile with no overlap, no finite pixel, no positive pixel, or no
opaque classified pixel.  The geometry mask of lines 343-346 is an optional
input (none both when no geometry was supplied and when
_create_geometry_mask returned None). -/
def render_tile (db : WMBounds) (tb : TileBounds) (resampled : ScalarGrid)
    (mask : Option MaskImage) : Option RgbaImage :=
  if db.west ≥ db.east ∨ db.south ≥ db.north then none
  else if tb.right ≤ db.west ∨ tb.left ≥ db.east ∨
          tb.top ≤ db.south ∨ tb.bottom ≥ db.north then none
  else if !anyPixel resampled FVal.isFiniteB then none
  else
    let tile_scalar := clampGrid resampled
    if !anyPixel tile_scalar (FVal.gtQ · 0) then none
    else
      let colored := colormapGrid tile_scalar
      if !anyOpaque colored then none
      else
        match mask with
        | none => some colored
        | some m => some (compositeMask colored m)

/-! ## Raster loading and orientation (tile_generator.py,
_load_raster_data_webmercator, lines 105-187) -/

/-- An affine transform (a, b, c, d, e, f) sending pixel coordinates
(col, row) to (a * col + b * row + c, d * col + e * row + f), as in the
Python affine library. -/
structure AffineT where
  a : ℚ
  b : ℚ
  c : ℚ
  d : ℚ
  e : ℚ
  f : ℚ
deriving DecidableEq, Repr

/-- Composition T * S of the affine library: (T * S)(v) = T(S(v)). -/
def AffineT.comp (T S : AffineT) : AffineT :=
  { a := T.a * S.a + T.b * S.d
    b := T.a * S.b + T.b * S.e
    c := T.a * S.c + T.b * S.f + T.c
    d := T.d * S.a + T.e * S.d
    e := T.d * S.b + T.e * S.e
    f := T.d * S.c + T.e * S.f + T.f }

/-- Affine.translation(dx, dy). -/
def AffineT.translation (dx dy : ℚ) : AffineT :=
  ⟨1, 0, dx, 0, 1, dy⟩

/-- Affine.scale(sx, sy). -/
def AffineT.scaleXY (sx sy : ℚ) : AffineT :=
  ⟨sx, 0, 0, 0, sy, 0⟩

/-- rasterio.transform.array_bounds(height, width, transform):
(west, south, east, north) with west, north the image of pixel (0, 0) and
east, south the image of pixel (width, height). -/
def array_bounds (height width : ℕ) (T : AffineT) : ℚ × ℚ × ℚ × ℚ :=
  (T.c, T.d * width + T.e * height + T.f,
   T.a * width + T.b * height + T.c, T.f)

/-- tile_generator.py lines 161-187: the orientation and bounds
normalisation applied after reading or reprojecting the raster.  data is the
pixel array (row-major); the reading/reprojection itself (rasterio, lines
122-159) is external and its result is the input here.  When the transform
has a positive vertical scale factor the array is flipped vertically
(np.flipud = List.reverse) and the transform is right-composed with
Affine.translation(0, height) * Affine.scale(1, -1); then bounds are
computed and components swapped if reversed. -/
def load_raster_data_webmercator (data : List (List ℚ)) (T : AffineT) :
    (List (List ℚ)) × AffineT × (ℚ × ℚ × ℚ × ℚ) :=
  let data2 := if T.e > 0 then data.reverse else data
  let T2 := if T.e > 0 then
      (T.comp (AffineT.translation 0 (data2.length))).comp
        (AffineT.scaleXY 1 (-1))
    else T
  let height := data2.length
  let width := (data2.headD []).length
  let ab := array_bounds height width T2
  let west := ab.1
  let south := ab.2.1
  let east := ab.2.2.1
  let north := ab.2.2.2
  let west2 := if west > east then east else west
  let east2 := if west > east then west else east
  let south2 := if south > north then north else south
  let north2 := if south > north then south else north
  (data2, T2, (west2, south2, east2, north2))

/-- A row-major grid is well sized: n rows, each of length n. -/
def gridWellSized {α : Type} (g : List (List α)) (n : ℕ) : Prop :=
  g.length = n ∧ ∀ row ∈ g, row.length = n

/-! # Theorems -/

/-- Claim C1: for every polygon input, analyze_geometry_complexity is a
deterministic function of (vertexCount, areaKm2) — it is embedded as a pure
function of exactly these two arguments — with is_large_area true iff the
area exceeds 1000 square kilometres, is_complex true iff the coordinate
count exceeds 500, the level given by the two booleans (very_high, high,
medium, low), and the recommended bundle selected from exactly four fixed,
pairwise distinct presets keyed by that level. -/
theorem C1_complexity_analyzer (c : ℕ) (a : ℚ) :
    ((analyze_geometry_complexity c a).is_large_area = true
        ↔ a > LARGE_AREA_THRESHOLD_KM2)
    ∧ ((analyze_geometry_complexity c a).is_complex = true
        ↔ c > COMPLEX_GEOMETRY_THRESHOLD)
    ∧ (analyze_geometry_complexity c a).complexity_level =
        (if a > LARGE_AREA_THRESHOLD_KM2 ∧ c > COMPLEX_GEOMETRY_THRESHOLD
          then "very_high"
         else if c > COMPLEX_GEOMETRY_THRESHOLD then "high"
         else if a > LARGE_AREA_THRESHOLD_KM2 then "medium"
         else "low")
    ∧ (analyze_geometry_complexity c a).recommended =
        presetForLevel (analyze_geometry_complexity c a).complexity_level
    ∧ (veryHighPreset ≠ highPreset ∧ veryHighPreset ≠ mediumPreset ∧
       veryHighPreset ≠ lowPreset ∧ highPreset ≠ mediumPreset ∧
       highPreset ≠ lowPreset ∧ mediumPreset ≠ lowPreset) := by
  by_cases hA : a > LARGE_AREA_THRESHOLD_KM2 <;>
    by_cases hC : c > COMPLEX_GEOMETRY_THRESHOLD <;>
      refine ⟨?_, ?_, ?_, ?_, by decide⟩ <;>
        simp [analyze_geometry_complexity, presetForLevel, hA, hC]

/-- Claim C2 counterexample: the claim states that every non-finite value
maps to a pixel with alpha 0, but positive infinity is classified into the
red band with alpha 220. -/
theorem C2_counterexample :
    (apply_erosion_colormap FVal.posInf).a = 220 ∧
    ¬(apply_erosion_colormap FVal.posInf).a = 0 := by
  decide

/-- Claim C2 (amended): the erosion colormap classification is total; every
value <= 0 (including negative infinity) and NaN map to a pixel with alpha
0; every finite v > 0 maps to exactly one of four disjoint bands — [0,50)
green, [50,100) yellow, [100,150) orange, [150,inf) red — each an opaque
distinct color; and positive infinity maps to the opaque red band.  This is
stated as equality with classifySpec, the function written from the amended
claim wording. -/
theorem C2_colormap_amended (v : FVal) :
    apply_erosion_colormap v = classifySpec v := by
  cases v with
  | nan => rfl
  | posInf => rfl
  | negInf => rfl
  | fin q =>
    simp only [apply_erosion_colormap, classifySpec, FVal.leQ, FVal.ltQ,
      FVal.geQ, FVal.gtQ, FVal.isNaNB, Bool.or_false]
    by_cases h0 : q ≤ 0 <;> by_cases h50 : q < 50 <;> by_cases h100 : q < 100
      <;> by_cases h150 : q < 150 <;>
      simp [h0, h50, h100, h150, not_le.mp, le_of_not_lt]

/-- Claim C9: the simplification tolerance actually applied and reported by
generate_geotiff is the minimum of the preset tolerance and 500 m, hence
never exceeds 500 m; in particular a very-high-complexity geometry (such as
800 vertices and 5000 square kilometres) has preset tolerance 2000 m but
applied tolerance 500 m. -/
theorem C9_simplify_tolerance_capped (c : ℕ) (a : ℚ) (tiles : List SubTile) :
    ((generate_geotiff c a tiles).1.simplify_tolerance =
        min (analyze_geometry_complexity c a).recommended.simplify_tolerance 500)
    ∧ (generate_geotiff c a tiles).1.simplify_tolerance ≤ 500
    ∧ (analyze_geometry_complexity 800 5000).recommended.simplify_tolerance = 2000
    ∧ (generate_geotiff 800 5000 tiles).1.simplify_tolerance = 500 := by
  refine ⟨?_, ?_, by decide, ?_⟩ <;>
    cases h : download_tiled_image tiles <;>
      simp [generate_geotiff, h, Nat.min_le_right] <;>
      decide

/-- Helper: the clamped right edge of cell k equals its unclamped value as
long as k + 1 <= n, for cell width (hi - lo) / n. -/
theorem gridSeamEq (lo hi : ℚ) (n : ℕ) (hn : 0 < n) (hw : lo ≤ hi)
    (k : ℕ) (hk : k + 1 ≤ n) :
    min (lo + k * ((hi - lo) / n) + (hi - lo) / n) hi
      = lo + ((k : ℚ) + 1) * ((hi - lo) / n) := by
  have hn0 : (n : ℚ) ≠ 0 := Nat.cast_ne_zero.mpr hn.ne'
  have h1 : ((k : ℚ) + 1) ≤ (n : ℚ) := by exact_mod_cast hk
  have ht0 : 0 ≤ (hi - lo) / n := by
    apply div_nonneg (by linarith)
    exact_mod_cast Nat.zero_le n
  have hend : (n : ℚ) * ((hi - lo) / n) = hi - lo := by field_simp
  have key : lo + ((k : ℚ) + 1) * ((hi - lo) / n) ≤ hi := by
    have := mul_le_mul_of_nonneg_right h1 ht0
    linarith
  have harr : lo + k * ((hi - lo) / n) + (hi - lo) / n
      = lo + ((k : ℚ) + 1) * ((hi - lo) / n) := by ring
  rw [harr, min_eq_left key]

/-- Helper: the grid always has at least one column. -/
theorem computeGrid_cols_pos (b : Bbox) (scale max_pixels : ℚ) :
    0 < (computeGrid b scale max_pixels).cols :=
  Nat.lt_of_lt_of_le Nat.one_pos (Nat.le_max_left _ _)

/-- Helper: the grid always has at least one row. -/
theorem computeGrid_rows_pos (b : Bbox) (scale max_pixels : ℚ) :
    0 < (computeGrid b scale max_pixels).rows :=
  Nat.lt_of_lt_of_le Nat.one_pos (Nat.le_max_left _ _)

/-- Claim C3: for every bounding box with positive width and height and
every positive scale and max-pixel budget, the cols x rows sub-tile grid
of the tiled downloader exactly tiles the bounding box: each sub-tile spans
the box span divided by cols (resp. rows), adjacent sub-tiles share their
edges (no gaps, no overlaps), the outermost edges coincide with the box
edges, and the sub-tile areas in square degrees sum exactly (the
floating-point tolerance of the claim is 0 in exact arithmetic) to the box
area. -/
theorem C3_grid_exact_tiling (b : Bbox) (scale max_pixels : ℚ) (g : GridSpec)
    (hg : g = computeGrid b scale max_pixels)
    (hw : b.min_lon < b.max_lon) (hh : b.min_lat < b.max_lat)
    (hs : 0 < scale) (hp : 0 < max_pixels) :
    (∀ c < g.cols, tileMaxLon b g c - tileMinLon b g c
        = (b.max_lon - b.min_lon) / g.cols)
    ∧ (∀ r < g.rows, tileMaxLat b g r - tileMinLat b g r
        = (b.max_lat - b.min_lat) / g.rows)
    ∧ (∀ c, c + 1 < g.cols → tileMaxLon b g c = tileMinLon b g (c + 1))
    ∧ (∀ r, r + 1 < g.rows → tileMaxLat b g r = tileMinLat b g (r + 1))
    ∧ tileMinLon b g 0 = b.min_lon
    ∧ tileMaxLon b g (g.cols - 1) = b.max_lon
    ∧ tileMinLat b g 0 = b.min_lat
    ∧ tileMaxLat b g (g.rows - 1) = b.max_lat
    ∧ (∑ c ∈ Finset.range g.cols, ∑ r ∈ Finset.range g.rows,
          (tileMaxLon b g c - tileMinLon b g c) *
            (tileMaxLat b g r - tileMinLat b g r))
        = (b.max_lon - b.min_lon) * (b.max_lat - b.min_lat) := by
  have hcols : 0 < g.cols := hg ▸ computeGrid_cols_pos b scale max_pixels
  have hrows : 0 < g.rows := hg ▸ computeGrid_rows_pos b scale max_pixels
  have htw : g.tile_width_deg = (b.max_lon - b.min_lon) / g.cols := by
    rw [hg]; rfl
  have hth : g.tile_height_deg = (b.max_lat - b.min_lat) / g.rows := by
    rw [hg]; rfl
  have hcols0 : (g.cols : ℚ) ≠ 0 := Nat.cast_ne_zero.mpr hcols.ne'
  have hrows0 : (g.rows : ℚ) ≠ 0 := Nat.cast_ne_zero.mpr hrows.ne'
  have spanLon : ∀ c < g.cols, tileMaxLon b g c - tileMinLon b g c
      = (b.max_lon - b.min_lon) / g.cols := by
    intro c hc
    rw [tileMaxLon, tileMinLon, htw,
      gridSeamEq b.min_lon b.max_lon g.cols hcols hw.le c hc]
    ring
  have spanLat : ∀ r < g.rows, tileMaxLat b g r - tileMinLat b g r
      = (b.max_lat - b.min_lat) / g.rows := by
    intro r hr
    rw [tileMaxLat, tileMinLat, hth,
      gridSeamEq b.min_lat b.max_lat g.rows hrows hh.le r hr]
    ring
  refine ⟨spanLon, spanLat, ?_, ?_, ?_, ?_, ?_, ?_, ?_⟩
  · intro c hc
    rw [tileMaxLon, tileMinLon, htw,
      gridSeamEq b.min_lon b.max_lon g.cols hcols hw.le c (by omega),
      tileMinLon, htw]
    push_cast
    ring
  · intro r hr
    rw [tileMaxLat, tileMinLat, hth,
      gridSeamEq b.min_lat b.max_lat g.rows hrows hh.le r (by omega),
      tileMinLat, hth]
    push_cast
    ring
  · simp [tileMinLon]
  · have hk : (g.cols - 1) + 1 ≤ g.cols := by omega
    rw [tileMaxLon, tileMinLon, htw,
      gridSeamEq b.min_lon b.max_lon g.cols hcols hw.le _ hk]
    have hc1 : ((g.cols - 1 : ℕ) : ℚ) + 1 = (g.cols : ℚ) := by
      have := Nat.sub_add_cancel hcols
      exact_mod_cast congrArg (Nat.cast : ℕ → ℚ) this
    rw [hc1]
    field_simp
  · simp [tileMinLat]
  · have hk : (g.rows - 1) + 1 ≤ g.rows := by omega
    rw [tileMaxLat, tileMinLat, hth,
      gridSeamEq b.min_lat b.max_lat g.rows hrows hh.le _ hk]
    have hr1 : ((g.rows - 1 : ℕ) : ℚ) + 1 = (g.rows : ℚ) := by
      have := Nat.sub_add_cancel hrows
      exact_mod_cast congrArg (Nat.cast : ℕ → ℚ) this
    rw [hr1]
    field_simp
  · have hsum : ∀ c ∈ Finset.range g.cols,
        (∑ r ∈ Finset.range g.rows,
          (tileMaxLon b g c - tileMinLon b g c) *
            (tileMaxLat b g r - tileMinLat b g r))
        = ((b.max_lon - b.min_lon) / g.cols) *
            ((g.rows : ℚ) * ((b.max_lat - b.min_lat) / g.rows)) := by
      intro c hc
      rw [Finset.sum_congr rfl fun r hr => by
        rw [spanLon c (Finset.mem_range.mp hc),
          spanLat r (Finset.mem_range.mp hr)]]
      rw [Finset.sum_const, Finset.card_range, nsmul_eq_mul]
      ring
    rw [Finset.sum_congr rfl hsum, Finset.sum_const, Finset.card_range,
      nsmul_eq_mul]
    field_simp

/-- Witness for claim C3 at a concrete box: instantiating the theorem at the
unit square with scale 300 and budget 1024 and extracting the exact area
identity. -/
theorem C3_grid_exact_tiling_witness :
    (∑ c ∈ Finset.range (computeGrid ⟨0, 1, 0, 1⟩ 300 1024).cols,
        ∑ r ∈ Finset.range (computeGrid ⟨0, 1, 0, 1⟩ 300 1024).rows,
          (tileMaxLon ⟨0, 1, 0, 1⟩ (computeGrid ⟨0, 1, 0, 1⟩ 300 1024) c
              - tileMinLon ⟨0, 1, 0, 1⟩ (computeGrid ⟨0, 1, 0, 1⟩ 300 1024) c) *
            (tileMaxLat ⟨0, 1, 0, 1⟩ (computeGrid ⟨0, 1, 0, 1⟩ 300 1024) r
              - tileMinLat ⟨0, 1, 0, 1⟩ (computeGrid ⟨0, 1, 0, 1⟩ 300 1024) r))
      = ((1 : ℚ) - 0) * ((1 : ℚ) - 0) :=
  (C3_grid_exact_tiling ⟨0, 1, 0, 1⟩ 300 1024 _ rfl (by norm_num)
    (by norm_num) (by norm_num) (by norm_num)).2.2.2.2.2.2.2.2

/-- Helper: the three-attempt retry loop, fully unrolled on the outcomes of
the (at most) three requests. -/
theorem downloadTileRun_eq (f : ℕ → ReqOutcome) :
    downloadTileRun f =
      match f 1 with
      | .success => ([⟨1, .success, none⟩], true)
      | o1 =>
        match f 2 with
        | .success =>
            ([⟨1, o1, some (retryBackoff o1 1)⟩, ⟨2, .success, none⟩], true)
        | o2 =>
          match f 3 with
          | .success =>
              ([⟨1, o1, some (retryBackoff o1 1)⟩,
                ⟨2, o2, some (retryBackoff o2 2)⟩, ⟨3, .success, none⟩], true)
          | o3 =>
              ([⟨1, o1, some (retryBackoff o1 1)⟩,
                ⟨2, o2, some (retryBackoff o2 2)⟩, ⟨3, o3, none⟩], false) := by
  cases h1 : f 1 <;> cases h2 : f 2 <;> cases h3 : f 3 <;>
    simp [downloadTileRun, runAttempts, h1, h2, h3]

/-- Helper: if the ordered walk over the sub-tiles returned a count, every
fetched sub-tile succeeded within its retries. -/
theorem processTiles_ok_all (tiles : List SubTile) (n : ℕ)
    (h : processTiles tiles = .ok n) :
    ∀ f2, SubTile.fetch f2 ∈ tiles → (downloadTileRun f2).2 = true := by
  induction tiles generalizing n with
  | nil => simp
  | cons t rest ih =>
    cases t with
    | skipped =>
      intro f2 hm
      rw [List.mem_cons] at hm
      rcases hm with hm | hm
      · exact absurd hm (by simp)
      · exact ih n (by simpa [processTiles] using h) f2 hm
    | fetch g =>
      by_cases hg : (downloadTileRun g).2 = true
      · intro f2 hm
        rw [List.mem_cons] at hm
        rcases hm with hm | hm
        · cases hm; exact hg
        · simp only [processTiles, hg, if_true] at h
          cases hrest : processTiles rest with
          | error e => rw [hrest] at h; exact absurd h (by simp [Except.map])
          | ok m => exact ih m hrest f2 hm
      · simp only [processTiles, hg, if_false, Bool.false_eq_true] at h
        exact absurd h (by simp)

/-- Helper: a successful tiled download reports the walk count, which is
positive. -/
theorem download_tiled_image_ok (tiles : List SubTile) (n : ℕ)
    (h : download_tiled_image tiles = .ok n) :
    processTiles tiles = .ok n ∧ 0 < n := by
  cases hp : processTiles tiles with
  | error e => simp [download_tiled_image, hp] at h
  | ok m =>
    cases m with
    | zero => simp [download_tiled_image, hp] at h
    | succ k =>
      simp only [download_tiled_image, hp] at h
      cases h
      exact ⟨rfl, Nat.succ_pos k⟩

/-- Claim C4: for each sub-tile the downloader makes at most 3 request
attempts, numbered 1 to 3; a backoff is slept only after a failed, non-final
attempt and equals min 120 (10 * attempt) after a read timeout and
min 120 (5 * attempt) after another request failure; a success on any
attempt stops retrying (only the final logged attempt can be a success, and
the run succeeds iff one of the three attempts succeeds); and a sub-tile
that exhausts its retries makes the whole tiled download fail, so a mosaic
(an ok result) is only ever produced from sub-tiles that all succeeded. -/
theorem C4_retry_with_backoff (f : ℕ → ReqOutcome) (tiles : List SubTile) :
    (downloadTileRun f).1.length ≤ 3
    ∧ (∀ e ∈ (downloadTileRun f).1, 1 ≤ e.attempt ∧ e.attempt ≤ 3)
    ∧ (∀ e ∈ (downloadTileRun f).1, ∀ s, e.slept = some s →
        (e.outcome = ReqOutcome.readTimeout ∧ s = min 120 (10 * e.attempt)) ∨
        (e.outcome = ReqOutcome.requestError ∧ s = min 120 (5 * e.attempt)))
    ∧ (∀ e ∈ (downloadTileRun f).1.dropLast, e.outcome ≠ ReqOutcome.success)
    ∧ ((downloadTileRun f).2 = true ↔
        f 1 = ReqOutcome.success ∨ f 2 = ReqOutcome.success ∨
          f 3 = ReqOutcome.success)
    ∧ (∀ n, download_tiled_image tiles = Except.ok n →
        ∀ f2, SubTile.fetch f2 ∈ tiles → (downloadTileRun f2).2 = true)
    ∧ ((∃ f2, SubTile.fetch f2 ∈ tiles ∧ (downloadTileRun f2).2 = false) →
        ∃ e, download_tiled_image tiles = Except.error e) := by
  refine ⟨?_, ?_, ?_, ?_, ?_, ?_, ?_⟩
  · rw [downloadTileRun_eq]
    cases f 1 <;> cases f 2 <;> cases f 3 <;> simp
  · rw [downloadTileRun_eq]
    cases f 1 <;> cases f 2 <;> cases f 3 <;> simp
  · rw [downloadTileRun_eq]
    cases f 1 <;> cases f 2 <;> cases f 3 <;> simp [retryBackoff]
  · rw [downloadTileRun_eq]
    cases f 1 <;> cases f 2 <;> cases f 3 <;> simp [List.dropLast]
  · rw [downloadTileRun_eq]
    cases h1 : f 1 <;> cases h2 : f 2 <;> cases h3 : f 3 <;> simp
  · intro n h
    exact processTiles_ok_all tiles n (download_tiled_image_ok tiles n h).1
  · rintro ⟨f2, hmem, hfail⟩
    cases hd : download_tiled_image tiles with
    | error e => exact ⟨e, rfl⟩
    | ok n =>
      have := processTiles_ok_all tiles n (download_tiled_image_ok tiles n hd).1
        f2 hmem
      rw [this] at hfail
      exact absurd hfail (by simp)

/-- Witness for claim C4: a sub-tile timing out on all three attempts makes
the tiled download return an error. -/
theorem C4_retry_with_backoff_witness :
    ∃ e, download_tiled_image [SubTile.fetch fun _ => ReqOutcome.readTimeout]
      = Except.error e :=
  (C4_retry_with_backoff (fun _ => ReqOutcome.readTimeout)
      [SubTile.fetch fun _ => ReqOutcome.readTimeout]).2.2.2.2.2.2
    ⟨fun _ => ReqOutcome.readTimeout, by simp, by decide⟩

/-- Claim C5: the tiled download never returns a raster from an empty list
of downloaded sub-tiles — a zero-success walk yields an error — and on any
tiled-download failure generate_geotiff invokes the grid-sampling fallback
(second component true) and records the non-null failure reason in the
metadata; on success it records no reason and does not fall back. -/
theorem C5_empty_download_and_fallback (c : ℕ) (a : ℚ) (tiles : List SubTile) :
    (∀ n, download_tiled_image tiles = Except.ok n → 0 < n)
    ∧ (processTiles tiles = Except.ok 0 →
        download_tiled_image tiles
          = Except.error "Tiled download produced no tiles.")
    ∧ (∀ e, download_tiled_image tiles = Except.error e →
        (generate_geotiff c a tiles).2 = true ∧
        (generate_geotiff c a tiles).1.tiling_error = some e)
    ∧ (∀ n, download_tiled_image tiles = Except.ok n →
        (generate_geotiff c a tiles).2 = false ∧
        (generate_geotiff c a tiles).1.tiling_error = none) := by
  refine ⟨?_, ?_, ?_, ?_⟩
  · intro n h
    exact (download_tiled_image_ok tiles n h).2
  · intro h
    simp [download_tiled_image, h]
  · intro e h
    simp [generate_geotiff, h]
  · intro n h
    simp [generate_geotiff, h]

/-- Witness for claim C5: with no sub-tiles at all, the tiled download
raises and generate_geotiff falls back, recording the reason. -/
theorem C5_empty_download_and_fallback_witness :
    (generate_geotiff 5 50 []).2 = true ∧
    (generate_geotiff 5 50 []).1.tiling_error
      = some "Tiled download produced no tiles." :=
  (C5_empty_download_and_fallback 5 50 []).2.2.1 _ rfl

/-- Helper: ratCeil agrees with the mathematical ceiling. -/
theorem ratCeil_eq (q : ℚ) : ratCeil q = ⌈q⌉ := by
  rw [ratCeil, (Rat.floor_def' (-q)).trans Rat.floor_def.symm, ← Int.ceil_neg,
    neg_neg]

/-- Claim C6 (code bug): the claim — following the specification — requires
more than one sub-tile when the box is wider than the span one sub-tile can
cover within the pixel budget at the given scale; but lines 283-284 of
raster_generator.py take the max of the budget span and the box span
(instead of the min), so the computed grid is 1 x 1 even for a 10 x 10
degree box at scale 300 with a 1024-pixel budget, whose width (10 degrees)
exceeds the single-tile budget span (1024 * 300 / 111000, about 2.77
degrees). -/
theorem C6_grid_never_splits :
    ((1024 : ℚ) * 300 / 111000 < (70 : ℚ) - 60)
    ∧ (computeGrid ⟨60, 70, 35, 45⟩ 300 1024).cols = 1
    ∧ (computeGrid ⟨60, 70, 35, 45⟩ 300 1024).rows = 1 := by
  have hmax : max ((1024 : ℚ) * 300 / 111000) ((70 : ℚ) - 60) = 10 := by
    rw [max_eq_right] <;> norm_num
  have hmax2 : max ((1024 : ℚ) * 300 / 111000) ((45 : ℚ) - 35) = 10 := by
    rw [max_eq_right] <;> norm_num
  refine ⟨by norm_num, ?_, ?_⟩
  · show max 1 (ratCeil (((70 : ℚ) - 60) /
        max ((1024 : ℚ) * 300 / 111000) ((70 : ℚ) - 60))).toNat = 1
    rw [ratCeil_eq, hmax]
    norm_num
  · show max 1 (ratCeil (((45 : ℚ) - 35) /
        max ((1024 : ℚ) * 300 / 111000) ((45 : ℚ) - 35))).toNat = 1
    rw [ratCeil_eq, hmax2]
    norm_num

/-- Helper: mapping a function over every pixel preserves grid dimensions. -/
theorem wellSized_map {α β : Type} (f : α → β) (g : List (List α)) (n : ℕ)
    (h : gridWellSized g n) : gridWellSized (g.map (List.map f)) n := by
  refine ⟨by simp [h.1], ?_⟩
  intro row hrow
  rw [List.mem_map] at hrow
  obtain ⟨r, hr, rfl⟩ := hrow
  simp [h.2 r hr]

/-- Helper: rows of a pixelwise zip of grids with rows of length n also have
length n. -/
theorem rowsLen_zipWith {α β γ : Type} (f : α → β → γ) :
    ∀ (g : List (List α)) (h : List (List β)) (n : ℕ),
      (∀ r ∈ g, r.length = n) → (∀ r ∈ h, r.length = n) →
      ∀ row ∈ List.zipWith (fun a b => List.zipWith f a b) g h,
        row.length = n := by
  intro g
  induction g with
  | nil => intro h n _ _ row hrow; simp at hrow
  | cons a g ih =>
    intro h n hg hh row hrow
    cases h with
    | nil => simp at hrow
    | cons b h2 =>
      rw [List.zipWith_cons_cons, List.mem_cons] at hrow
      rcases hrow with rfl | hrow
      · rw [List.length_zipWith, hg a (List.mem_cons_self a g),
          hh b (List.mem_cons_self b h2), Nat.min_self]
      · exact ih h2 n (fun r hr => hg r (List.mem_cons_of_mem a hr))
          (fun r hr => hh r (List.mem_cons_of_mem b hr)) row hrow

/-- Helper: zipping two well-sized grids pixelwise preserves dimensions. -/
theorem wellSized_zipWith {α β γ : Type} (f : α → β → γ)
    (g : List (List α)) (h : List (List β)) (n : ℕ)
    (hg : gridWellSized g n) (hh : gridWellSized h n) :
    gridWellSized (List.zipWith (fun a b => List.zipWith f a b) g h) n :=
  ⟨by rw [List.length_zipWith, hg.1, hh.1, Nat.min_self],
   rowsLen_zipWith f g h n hg.2 hh.2⟩

/-- Claim C7: given valid raster bounds and a well-sized resampled buffer,
the per-tile renderer returns no image (so the tile is skipped and no file
is written) exactly when the tile bounds do not overlap the raster bounds,
or no resampled pixel is finite, or no resampled pixel is strictly positive
after clamping negatives to zero, or the classified image has no
non-transparent pixel; otherwise it produces a tile_size x tile_size
(256 x 256) RGBA image. -/
theorem C7_render_tile_skip_iff (db : WMBounds) (tb : TileBounds)
    (resampled : ScalarGrid) (mask : Option MaskImage)
    (hdb1 : db.west < db.east) (hdb2 : db.south < db.north)
    (hdim : gridWellSized resampled tile_size)
    (hmask : ∀ m, mask = some m → gridWellSized m tile_size) :
    (render_tile db tb resampled mask = none ↔
      ((tb.right ≤ db.west ∨ tb.left ≥ db.east ∨ tb.top ≤ db.south ∨
          tb.bottom ≥ db.north)
        ∨ anyPixel resampled FVal.isFiniteB = false
        ∨ anyPixel (clampGrid resampled) (FVal.gtQ · 0) = false
        ∨ anyOpaque (colormapGrid (clampGrid resampled)) = false))
    ∧ (∀ img, render_tile db tb resampled mask = some img →
        gridWellSized img tile_size) := by
  have hv : ¬(db.west ≥ db.east ∨ db.south ≥ db.north) := by
    push_neg
    exact ⟨hdb1, hdb2⟩
  have hcolored : gridWellSized (colormapGrid (clampGrid resampled))
      tile_size :=
    wellSized_map _ _ _ (wellSized_map _ _ _ hdim)
  rw [render_tile, if_neg hv]
  by_cases h1 : (tb.right ≤ db.west ∨ tb.left ≥ db.east ∨ tb.top ≤ db.south ∨
      tb.bottom ≥ db.north)
  · simp [h1]
  · rw [if_neg h1]
    by_cases h2 : anyPixel resampled FVal.isFiniteB <;>
      by_cases h3 : anyPixel (clampGrid resampled) (FVal.gtQ · 0) <;>
        by_cases h4 : anyOpaque (colormapGrid (clampGrid resampled)) <;>
          cases hm : mask with
          | none =>
            refine ⟨by simp [h1, h2, h3, h4], ?_⟩
            intro img himg
            simp only [h2, h3, h4] at himg
            simp at himg
            try exact himg ▸ hcolored
          | some m =>
            refine ⟨by simp [h1, h2, h3, h4], ?_⟩
            intro img himg
            simp only [h2, h3, h4] at himg
            simp at himg
            try (rw [← himg]; exact wellSized_zipWith compositePixel (colormapGrid (clampGrid resampled)) m tile_size hcolored (hmask m hm))

/-- Witness for claim C7: a tile strictly east of the raster bounds is
skipped (no file written). -/
theorem C7_render_tile_skip_iff_witness :
    render_tile ⟨0, 0, 10, 10⟩ ⟨20, 20, 30, 30⟩
      (List.replicate tile_size (List.replicate tile_size (FVal.fin 1))) none
      = none := by
  have h := C7_render_tile_skip_iff ⟨0, 0, 10, 10⟩ ⟨20, 20, 30, 30⟩
      (List.replicate tile_size (List.replicate tile_size (FVal.fin 1))) none
      (by norm_num) (by norm_num) (by simp [gridWellSized]) (by simp)
  exact h.1.mpr (Or.inl (Or.inr (Or.inl (by norm_num))))

/-- Helper: the first element taken with a default is a member of a
nonempty list. -/
theorem headD_mem {α : Type} (l : List α) (d : α) (h : l ≠ []) :
    l.headD d ∈ l := by
  cases l with
  | nil => exact absurd rfl h
  | cons a t => simp

/-- Claim C10: for every nonempty raster with equal row lengths and an
axis-aligned transform with nonzero pixel scales, the loader returns a
transform whose vertical scale factor is non-positive — flipping the pixel
array vertically and adjusting the transform when the source vertical scale
is positive, and leaving both unchanged otherwise — and bounds ordered as
west < east and south < north (swapping components when they arrive
reversed). -/
theorem C10_north_up_and_ordered_bounds (data : List (List ℚ)) (T : AffineT)
    (w : ℕ) (hh : data ≠ []) (hrows : ∀ row ∈ data, row.length = w)
    (hw : 0 < w) (hb : T.b = 0) (hd : T.d = 0) (ha : T.a ≠ 0) (he : T.e ≠ 0) :
    ((load_raster_data_webmercator data T).2.1.e ≤ 0)
    ∧ (T.e > 0 →
        (load_raster_data_webmercator data T).1 = data.reverse ∧
        (load_raster_data_webmercator data T).2.1.e = -T.e ∧
        (load_raster_data_webmercator data T).2.1.f
          = T.f + T.e * data.length)
    ∧ (¬T.e > 0 →
        (load_raster_data_webmercator data T).1 = data ∧
        (load_raster_data_webmercator data T).2.1 = T)
    ∧ ((load_raster_data_webmercator data T).2.2.1 <
        (load_raster_data_webmercator data T).2.2.2.2.1)
    ∧ ((load_raster_data_webmercator data T).2.2.2.1 <
        (load_raster_data_webmercator data T).2.2.2.2.2) := by
  have hlen : 0 < data.length := List.length_pos.mpr hh
  have hlenQ : (0 : ℚ) < data.length := by exact_mod_cast hlen
  have hwQ : (0 : ℚ) < w := by exact_mod_cast hw
  have hwne : ((w : ℚ)) ≠ 0 := ne_of_gt hwQ
  by_cases hflip : T.e > 0
  · have hrev : data.reverse ≠ [] := by simpa using hh
    have hwidth : ((data.reverse).headD []).length = w :=
      hrows _ (List.mem_reverse.mp (headD_mem _ [] hrev))
    refine ⟨?_, fun _ => ⟨?_, ?_, ?_⟩, fun hc => absurd hflip hc, ?_, ?_⟩ <;>
      simp only [load_raster_data_webmercator, if_pos hflip,
        AffineT.comp, AffineT.translation, AffineT.scaleXY, array_bounds,
        List.length_reverse, hwidth, hb, hd] <;> ring_nf
    · linarith
    · split_ifs with hc
      · exact hc
      · have h0 : 0 ≤ T.a * w := by linarith [not_lt.mp hc]
        have hne2 : T.a * (w : ℚ) ≠ 0 := mul_ne_zero ha hwne
        have : 0 < T.a * w := lt_of_le_of_ne h0 (Ne.symm hne2)
        linarith
    · split_ifs with hc
      · nlinarith
      · nlinarith
  · have hwidth : ((data).headD []).length = w :=
      hrows _ (headD_mem _ [] hh)
    have heneg : T.e < 0 := lt_of_le_of_ne (not_lt.mp hflip) he
    refine ⟨?_, fun hc => absurd hc hflip, fun _ => ⟨?_, ?_⟩, ?_, ?_⟩ <;>
      simp only [load_raster_data_webmercator, if_neg hflip,
        AffineT.comp, AffineT.translation, AffineT.scaleXY, array_bounds,
        hwidth, hb, hd] <;> ring_nf
    · linarith
    · split_ifs with hc
      · exact hc
      · have h0 : 0 ≤ T.a * w := by linarith [not_lt.mp hc]
        have hne2 : T.a * (w : ℚ) ≠ 0 := mul_ne_zero ha hwne
        have : 0 < T.a * w := lt_of_le_of_ne h0 (Ne.symm hne2)
        linarith
    · split_ifs with hc
      · nlinarith
      · nlinarith

/-- Witness for claim C10: a 2 x 2 raster whose transform has positive
vertical scale is flipped and gets a negative vertical scale. -/
theorem C10_north_up_and_ordered_bounds_witness :
    (load_raster_data_webmercator [[1, 2], [3, 4]] ⟨1, 0, 10, 0, 1, 20⟩).2.1.e
      ≤ 0 ∧
    (load_raster_data_webmercator [[1, 2], [3, 4]] ⟨1, 0, 10, 0, 1, 20⟩).1
      = [[3, 4], [1, 2]] := by
  have h := C10_north_up_and_ordered_bounds [[1, 2], [3, 4]]
    ⟨1, 0, 10, 0, 1, 20⟩ 2 (by simp) (by simp) (by norm_num) rfl rfl
    (by norm_num) (by norm_num)
  exact ⟨h.1, ((h.2.1 (by norm_num)).1).trans (by rfl)⟩
